import Mathlib

/-!
Verification development for the ChatList fan-out core (`network.py`).

The Python module is shallowly embedded: JSON values become the inductive
type `PyVal`, Python exceptions become `PyErr` values threaded through
`Except`, the process environment and the network are explicit functional
parameters, and every function of the module becomes a computable Lean
definition with the same name and the same control flow.  Lower-casing is
modelled on the ASCII range (the URLs in all properties are ASCII).
-/

set_option autoImplicit false

namespace ChatList

/-- Kinds of Python exceptions that the embedded code can raise or catch. -/
inductive PyErrKind where
  | keyError
  | indexError
  | typeError
  | attributeError
  | jsonDecodeError
  | httpxTimeout
  | httpxRequestError
  | otherError
  deriving DecidableEq, Repr

/-- A Python exception: its class together with its rendered message. -/
structure PyErr where
  kind : PyErrKind
  msg : String
  deriving DecidableEq, Repr

/-- A Python/JSON value, as produced by `response.json()` / `json.loads`. -/
inductive PyVal where
  | str (s : String)
  | int (n : Int)
  | bool (b : Bool)
  | none
  | list (xs : List PyVal)
  | dict (entries : List (String × PyVal))

/-- Python truthiness of a value (used by `if delta:` and `x or y`). -/
def pyTruthy : PyVal → Bool
  | .str s => !s.isEmpty
  | .int n => n != 0
  | .bool b => b
  | .none => false
  | .list xs => !xs.isEmpty
  | .dict es => !es.isEmpty

/-- Truthiness of an `Optional[str]`: `None` and `""` are falsy. -/
def optTruthy : Option String → Bool
  | Option.none => false
  | Option.some s => !s.isEmpty

/-- First value bound to `k` in a literal dict, or the default `d`. -/
def lookupD (es : List (String × PyVal)) (k : String) (d : PyVal) : PyVal :=
  match es.find? (fun p => p.1 == k) with
  | Option.some p => p.2
  | Option.none => d

/-- Python `v.get(k, d)`: defaults an absent key on a dict, raises
`AttributeError` on every non-dict value. -/
def pyGet (v : PyVal) (k : String) (d : PyVal) : Except PyErr PyVal :=
  match v with
  | .dict es => .ok (lookupD es k d)
  | .str _ => .error ⟨.attributeError, "str object has no attribute get"⟩
  | .int _ => .error ⟨.attributeError, "int object has no attribute get"⟩
  | .bool _ => .error ⟨.attributeError, "bool object has no attribute get"⟩
  | .none => .error ⟨.attributeError, "NoneType object has no attribute get"⟩
  | .list _ => .error ⟨.attributeError, "list object has no attribute get"⟩

/-- Python `v[0]`: head of a list (`IndexError` when empty), first character
of a string (`IndexError` when empty), `KeyError` on a string-keyed dict,
`TypeError` on non-subscriptable values. -/
def pyIndex0 (v : PyVal) : Except PyErr PyVal :=
  match v with
  | .list [] => .error ⟨.indexError, "list index out of range"⟩
  | .list (x :: _) => .ok x
  | .str s =>
    if s.isEmpty then .error ⟨.indexError, "string index out of range"⟩
    else .ok (.str ⟨s.data.take 1⟩)
  | .dict _ => .error ⟨.keyError, "0"⟩
  | .int _ => .error ⟨.typeError, "int object is not subscriptable"⟩
  | .bool _ => .error ⟨.typeError, "bool object is not subscriptable"⟩
  | .none => .error ⟨.typeError, "NoneType object is not subscriptable"⟩

/-- Python `s[:n]` on strings. -/
def pyTake (s : String) (n : Nat) : String := ⟨s.data.take n⟩

/-- Python `s[n:]` on strings. -/
def pyDrop (s : String) (n : Nat) : String := ⟨s.data.drop n⟩

/-- ASCII lower-casing of one character, as `str.lower` does on ASCII. -/
def charLower (c : Char) : Char :=
  if 65 ≤ c.toNat ∧ c.toNat ≤ 90 then Char.ofNat (c.toNat + 32) else c

/-- Python `s.lower()` (ASCII range). -/
def pyLower (s : String) : String := ⟨s.data.map charLower⟩

/-- Bool-valued infix test on character lists. -/
def infixOfB (pat : List Char) : List Char → Bool
  | [] => pat.isEmpty
  | c :: rest => pat.isPrefixOf (c :: rest) || infixOfB pat rest

/-- Python `pat in s` on strings (substring containment). -/
def containsSub (s pat : String) : Bool := infixOfB pat.data s.data

/-- Python `s.startswith(pat)`. -/
def pyStartsWith (s pat : String) : Bool := pat.data.isPrefixOf s.data

/-- Python `a or b` on `Optional[str]` values. -/
def pyOrStr (a b : Option String) : Option String :=
  if optTruthy a then a else b

/-- Python `a or ""` on an `Optional[str]`. -/
def pyOrEmpty (a : Option String) : String :=
  if optTruthy a then a.getD "" else ""

/-- Python `d[k] = v` on a dict value (identity on non-dicts, which never
occurs in the embedded code: it is only applied to dict literals). -/
def pyDictSet (v : PyVal) (k : String) (val : PyVal) : PyVal :=
  match v with
  | .dict es =>
    if es.any (fun p => p.1 == k) then
      .dict (es.map (fun p => if p.1 == k then (k, val) else p))
    else .dict (es ++ [(k, val)])
  | w => w

/-- `class APIProvider(Enum)` of `network.py`. -/
inductive APIProvider where
  | OPENAI
  | ANTHROPIC
  | DEEPSEEK
  | GROQ
  | CUSTOM
  deriving DecidableEq, Repr

/-- The `.value` string of each `APIProvider` member. -/
def APIProvider.value : APIProvider → String
  | .OPENAI => "openai"
  | .ANTHROPIC => "anthropic"
  | .DEEPSEEK => "deepseek"
  | .GROQ => "groq"
  | .CUSTOM => "custom"

/-- `@dataclass APIResponse` of `network.py`.  `content` and `tokens_used`
are kept as `PyVal` because Python dataclasses do not enforce the annotated
types and the parser stores whatever the JSON held. -/
structure APIResponse where
  success : Bool
  content : PyVal
  error : Option String := Option.none
  tokens_used : PyVal := PyVal.int 0

/-- `@dataclass Model` of `models.py`. -/
structure Model where
  id : Option Int := Option.none
  name : String := ""
  api_url : String := ""
  api_id : String := ""
  is_active : Bool := true

/-- `get_api_key` of `network.py`: the `env` parameter is the process
environment (`os.getenv`); `key_mapping` has no entry for `CUSTOM`. -/
def get_api_key (env : String → Option String) (provider : APIProvider) :
    Option String :=
  match provider with
  | .OPENAI => env "OPENAI_API_KEY"
  | .ANTHROPIC => env "ANTHROPIC_API_KEY"
  | .DEEPSEEK => env "DEEPSEEK_API_KEY"
  | .GROQ => env "GROQ_API_KEY"
  | .CUSTOM => Option.none

/-- `detect_provider` of `network.py`: substring tests on the lower-cased
URL, in source order. -/
def detect_provider (api_url : String) : APIProvider :=
  let url_lower := pyLower api_url
  if containsSub url_lower "openai.com" then .OPENAI
  else if containsSub url_lower "anthropic.com" then .ANTHROPIC
  else if containsSub url_lower "deepseek.com" then .DEEPSEEK
  else if containsSub url_lower "groq.com" then .GROQ
  else .CUSTOM

/-- `class LLMClient` state: constructor arguments and
`set_custom_api_key`. -/
structure LLMClient where
  timeout : Int := 30
  custom_api_key : Option String := Option.none

/-- The credential actually placed in headers by `LLMClient._get_headers`:
`api_key = self._custom_api_key or get_api_key(provider)` followed by
`api_key or ""`. -/
def resolved_api_key (client : LLMClient) (env : String → Option String)
    (provider : APIProvider) : String :=
  pyOrEmpty (pyOrStr client.custom_api_key (get_api_key env provider))

/-- `LLMClient._get_headers` of `network.py`, as an ordered header list. -/
def LLMClient.get_headers (client : LLMClient) (env : String → Option String)
    (provider : APIProvider) : List (String × String) :=
  let api_key := resolved_api_key client env provider
  if provider = APIProvider.ANTHROPIC then
    [("Content-Type", "application/json"),
     ("x-api-key", api_key),
     ("anthropic-version", "2023-06-01")]
  else
    [("Content-Type", "application/json"),
     ("Authorization", "Bearer " ++ api_key)]

/-- `LLMClient._build_request_body` of `network.py`. -/
def build_request_body (provider : APIProvider) (model_id : String)
    (prompt : String) (max_tokens : Int := 4096) : PyVal :=
  if provider = APIProvider.ANTHROPIC then
    .dict [("model", .str model_id),
           ("max_tokens", .int max_tokens),
           ("messages", .list [.dict [("role", .str "user"),
                                      ("content", .str prompt)]])]
  else
    .dict [("model", .str model_id),
           ("messages", .list [.dict [("role", .str "user"),
                                      ("content", .str prompt)]]),
           ("max_tokens", .int max_tokens)]

/-- The `try` block of `LLMClient._parse_response`: the chained
`.get`/`[0]` accesses, each of which can raise. -/
def parse_attempt (provider : APIProvider) (data : PyVal) :
    Except PyErr (PyVal × PyVal) :=
  if provider = APIProvider.ANTHROPIC then do
    let l ← pyGet data "content" (.list [.dict []])
    let c0 ← pyIndex0 l
    let content ← pyGet c0 "text" (.str "")
    let u ← pyGet data "usage" (.dict [])
    let tokens ← pyGet u "output_tokens" (.int 0)
    pure (content, tokens)
  else do
    let l ← pyGet data "choices" (.list [.dict []])
    let c0 ← pyIndex0 l
    let m ← pyGet c0 "message" (.dict [])
    let content ← pyGet m "content" (.str "")
    let u ← pyGet data "usage" (.dict [])
    let tokens ← pyGet u "completion_tokens" (.int 0)
    pure (content, tokens)

/-- `LLMClient._parse_response` of `network.py`: the `except` clause
catches `KeyError` and `IndexError` only; every other exception
propagates to the caller. -/
def parse_response (provider : APIProvider) (data : PyVal) :
    Except PyErr APIResponse :=
  match parse_attempt provider data with
  | .ok (content, tokens) =>
    .ok { success := true, content := content, tokens_used := tokens }
  | .error e =>
    if e.kind = PyErrKind.keyError ∨ e.kind = PyErrKind.indexError then
      .ok { success := false, content := .str "",
            error := Option.some ("Ошибка парсинга ответа: " ++ e.msg),
            tokens_used := .int 0 }
    else .error e

/-- Result of the awaited `httpx` POST inside `send_prompt`: either a
response (status, text body, and the value `response.json()` would give,
which may itself raise) or an exception raised by the transport. -/
inductive HttpResult where
  | response (status : Nat) (text : String) (json : Except PyErr PyVal)
  | raise (e : PyErr)

/-- The `except` clauses of `send_prompt`: `httpx.TimeoutException`, then
`httpx.RequestError`, then the catch-all `Exception`. -/
def except_chain (e : PyErr) : APIResponse :=
  if e.kind = PyErrKind.httpxTimeout then
    { success := false, content := .str "",
      error := Option.some "Превышено время ожидания ответа",
      tokens_used := .int 0 }
  else if e.kind = PyErrKind.httpxRequestError then
    { success := false, content := .str "",
      error := Option.some ("Ошибка сети: " ++ e.msg),
      tokens_used := .int 0 }
  else
    { success := false, content := .str "",
      error := Option.some ("Неизвестная ошибка: " ++ e.msg),
      tokens_used := .int 0 }

/-- `LLMClient.send_prompt` of `network.py`.  `env` is the process
environment and `net` the behaviour of the single HTTP POST; a `.error`
result would be an exception escaping to the caller. -/
def LLMClient.send_prompt (client : LLMClient) (env : String → Option String)
    (net : HttpResult) (model : Model) (prompt : String)
    (max_tokens : Int := 4096) : Except PyErr APIResponse :=
  let provider := detect_provider model.api_url
  let _headers := client.get_headers env provider
  let _body := build_request_body provider model.api_id prompt max_tokens
  if !optTruthy client.custom_api_key && !optTruthy (get_api_key env provider)
  then
    .ok { success := false, content := .str "",
          error := Option.some ("API ключ не найден для провайдера "
                                 ++ provider.value),
          tokens_used := .int 0 }
  else
    let attempt : Except PyErr APIResponse :=
      match net with
      | .raise e => .error e
      | .response status text json =>
        if status = 200 then
          match json with
          | .error e => .error e
          | .ok data => parse_response provider data
        else
          .ok { success := false, content := .str "",
                error := Option.some ("HTTP " ++ toString status ++ ": "
                                       ++ pyTake text 200),
                tokens_used := .int 0 }
    match attempt with
    | .ok r => .ok r
    | .error e => .ok (except_chain e)

/-- How the server-sent event stream of `send_prompt_streaming` ends:
normal exhaustion, or an exception raised during iteration. -/
inductive StreamTerminal where
  | done
  | raise (e : PyErr)

/-- Behaviour of the streaming POST: an exception before a response is
available, or a status plus the lines delivered before the terminal
event. -/
inductive StreamNet where
  | raise (e : PyErr)
  | response (status : Nat) (errText : String) (lines : List String)
      (terminal : StreamTerminal)

/-- Delta extraction of one streamed chunk in `send_prompt_streaming`. -/
def extract_delta (provider : APIProvider) (data : PyVal) :
    Except PyErr PyVal :=
  if provider = APIProvider.ANTHROPIC then do
    let d ← pyGet data "delta" (.dict [])
    pyGet d "text" (.str "")
  else do
    let l ← pyGet data "choices" (.list [.dict []])
    let c0 ← pyIndex0 l
    let d ← pyGet c0 "delta" (.dict [])
    pyGet d "content" (.str "")

/-- Processing of one `data:` payload: `json.loads`, delta extraction,
truthiness test and `full_content += delta`, inside a bare
`try`/`except: pass`, so every exception leaves the accumulator as it
was. -/
def line_step (loads : String → Except PyErr PyVal) (provider : APIProvider)
    (acc : String) (data_str : String) : String :=
  match (do
      let data ← loads data_str
      let delta ← extract_delta provider data
      if pyTruthy delta then
        match delta with
        | .str s => pure (acc ++ s)
        | _ => Except.error ⟨PyErrKind.typeError, "can only concatenate str to str"⟩
      else pure acc : Except PyErr String) with
  | .ok acc2 => acc2
  | .error _ => acc

/-- The `async for line in response.aiter_lines()` loop of
`send_prompt_streaming`, with the `[DONE]` break. -/
def stream_lines (loads : String → Except PyErr PyVal)
    (provider : APIProvider) : List String → String → String
  | [], acc => acc
  | line :: rest, acc =>
    if pyStartsWith line "data: " then
      let data_str := pyDrop line 6
      if data_str = "[DONE]" then acc
      else stream_lines loads provider rest (line_step loads provider acc data_str)
    else stream_lines loads provider rest acc

/-- The `except` clauses of `send_prompt_streaming`:
`httpx.TimeoutException`, then the catch-all `Exception`; both keep the
accumulated `full_content`. -/
def stream_except_chain (e : PyErr) (full_content : String) : APIResponse :=
  if e.kind = PyErrKind.httpxTimeout then
    { success := false, content := .str full_content,
      error := Option.some "Превышено время ожидания ответа",
      tokens_used := .int 0 }
  else
    { success := false, content := .str full_content,
      error := Option.some ("Ошибка: " ++ e.msg),
      tokens_used := .int 0 }

/-- `LLMClient.send_prompt_streaming` of `network.py`.  `loads` is
`json.loads`; the handlers catch every exception, so the result is a
plain `APIResponse`. -/
def LLMClient.send_prompt_streaming (client : LLMClient)
    (env : String → Option String) (net : StreamNet)
    (loads : String → Except PyErr PyVal) (model : Model) (prompt : String)
    (max_tokens : Int := 4096) : APIResponse :=
  let provider := detect_provider model.api_url
  let _headers := client.get_headers env provider
  let _body := pyDictSet (build_request_body provider model.api_id prompt
                            max_tokens) "stream" (.bool true)
  if !optTruthy client.custom_api_key && !optTruthy (get_api_key env provider)
  then
    { success := false, content := .str "",
      error := Option.some ("API ключ не найден для провайдера "
                             ++ provider.value),
      tokens_used := .int 0 }
  else
    match net with
    | .raise e => stream_except_chain e ""
    | .response status errText lines terminal =>
      if status ≠ 200 then
        { success := false, content := .str "",
          error := Option.some ("HTTP " ++ toString status ++ ": "
                                 ++ pyTake errText 200),
          tokens_used := .int 0 }
      else
        let full_content := stream_lines loads provider lines ""
        match terminal with
        | .done =>
          { success := true, content := .str full_content,
            error := Option.none, tokens_used := .int 0 }
        | .raise e => stream_except_chain e full_content

/-- `asyncio.gather` over tasks that may raise: results in task order, the
first exception propagating. -/
def gather {α β : Type} (f : α → Except PyErr β) :
    List α → Except PyErr (List β)
  | [] => .ok []
  | x :: xs => do
    let y ← f x
    let ys ← gather f xs
    pure (y :: ys)

/-- One insertion step of Python dict construction: an existing key is
overwritten in place, a new key is appended. -/
def dictInsert {K V : Type} [DecidableEq K] (d : List (K × V)) (k : K)
    (v : V) : List (K × V) :=
  if k ∈ d.map Prod.fst then
    d.map (fun p => if p.1 = k then (k, v) else p)
  else d ++ [(k, v)]

/-- Python dict built from a list of key/value pairs (the comprehension in
`send_to_multiple_models`), as an ordered association list. -/
def pyDictOfList {K V : Type} [DecidableEq K] (ps : List (K × V)) :
    List (K × V) :=
  ps.foldl (fun d p => dictInsert d p.1 p.2) []

/-- `send_to_multiple_models` of `network.py`: one `send_one` task per
model, gathered, then packed into a dict keyed by `model.id`. -/
def send_to_multiple_models (env : String → Option String)
    (net : Model → HttpResult) (models : List Model) (prompt : String)
    (timeout : Int := 30) : Except PyErr (List (Option Int × APIResponse)) := do
  let client : LLMClient := { timeout := timeout }
  let results ← gather (fun model => do
      let response ← client.send_prompt env (net model) model prompt
      pure (model.id, response)) models
  pure (pyDictOfList results)

/-- Modelled from the spec: the spec's closed `ProviderKind` enumeration
{OpenAICompatible, Anthropic, Custom} (section 3), which groups the
code's OpenAI, DeepSeek and Groq members under one label. -/
inductive SpecProviderKind where
  | openAICompatible
  | anthropic
  | custom
  deriving DecidableEq, Repr

/-- Modelled from the spec: the labelling of the code's `APIProvider`
members in the spec's vocabulary (section 4.1). -/
def specKind : APIProvider → SpecProviderKind
  | .OPENAI => .openAICompatible
  | .DEEPSEEK => .openAICompatible
  | .GROQ => .openAICompatible
  | .ANTHROPIC => .anthropic
  | .CUSTOM => .custom

/-! ## Helper lemmas -/

theorem str_append_ne_empty (s t : String) (h : 0 < s.length) :
    s ++ t ≠ "" := by
  intro hc
  have h2 := congrArg String.length hc
  simp [String.length_append] at h2
  omega

theorem parse_response_cases (p : APIProvider) (d : PyVal) :
    (∃ c t, parse_response p d
        = .ok { success := true, content := c, error := Option.none,
                tokens_used := t })
  ∨ (∃ m, m ≠ "" ∧ parse_response p d
        = .ok { success := false, content := .str "",
                error := Option.some m, tokens_used := .int 0 })
  ∨ (∃ e, parse_response p d = .error e) := by
  cases h : parse_attempt p d with
  | ok ct =>
    left
    exact ⟨ct.1, ct.2, by simp [parse_response, h]⟩
  | error e =>
    by_cases hk : e.kind = PyErrKind.keyError ∨ e.kind = PyErrKind.indexError
    · right; left
      refine ⟨"Ошибка парсинга ответа: " ++ e.msg,
              str_append_ne_empty _ _ (by decide), ?_⟩
      simp [parse_response, h, hk]
    · right; right
      exact ⟨e, by simp [parse_response, h, hk]⟩

theorem except_chain_spec (e : PyErr) :
    (except_chain e).success = false ∧ (except_chain e).content = .str ""
    ∧ (except_chain e).tokens_used = .int 0
    ∧ ∃ m, (except_chain e).error = Option.some m ∧ m ≠ "" := by
  unfold except_chain
  split
  · exact ⟨rfl, rfl, rfl, _, rfl, by decide⟩
  split
  · exact ⟨rfl, rfl, rfl, _, rfl, str_append_ne_empty _ _ (by decide)⟩
  · exact ⟨rfl, rfl, rfl, _, rfl, str_append_ne_empty _ _ (by decide)⟩

theorem stream_except_chain_spec (e : PyErr) (full_content : String) :
    (stream_except_chain e full_content).success = false
    ∧ (stream_except_chain e full_content).content = .str full_content
    ∧ (stream_except_chain e full_content).tokens_used = .int 0
    ∧ ∃ m, (stream_except_chain e full_content).error = Option.some m
           ∧ m ≠ "" := by
  unfold stream_except_chain
  split
  · exact ⟨rfl, rfl, rfl, _, rfl, by decide⟩
  · exact ⟨rfl, rfl, rfl, _, rfl, str_append_ne_empty _ _ (by decide)⟩

/-- Every outcome of `send_prompt` is a returned `APIResponse`; failures
carry empty content, zero tokens and a non-empty error message. -/
theorem send_prompt_cases (client : LLMClient) (env : String → Option String)
    (net : HttpResult) (model : Model) (prompt : String) (mt : Int) :
    ∃ r, LLMClient.send_prompt client env net model prompt mt = .ok r ∧
      (r.success = true ∨
        (r.success = false ∧ r.content = .str "" ∧ r.tokens_used = .int 0
         ∧ ∃ m, r.error = Option.some m ∧ m ≠ "")) := by
  by_cases hkey : (!optTruthy client.custom_api_key
      && !optTruthy (get_api_key env (detect_provider model.api_url))) = true
  · refine ⟨⟨false, .str "",
        Option.some ("API ключ не найден для провайдера "
          ++ (detect_provider model.api_url).value), .int 0⟩, ?_,
      Or.inr ⟨rfl, rfl, rfl, _, rfl, str_append_ne_empty _ _ (by decide)⟩⟩
    simp [LLMClient.send_prompt, hkey]
  · cases net with
    | raise e =>
      obtain ⟨h1, h2, h3, m, h4, h5⟩ := except_chain_spec e
      exact ⟨except_chain e, by simp [LLMClient.send_prompt, hkey],
        Or.inr ⟨h1, h2, h3, m, h4, h5⟩⟩
    | response status text json =>
      by_cases hs : status = 200
      · cases json with
        | error e =>
          obtain ⟨h1, h2, h3, m, h4, h5⟩ := except_chain_spec e
          exact ⟨except_chain e, by simp [LLMClient.send_prompt, hkey, hs],
            Or.inr ⟨h1, h2, h3, m, h4, h5⟩⟩
        | ok data =>
          rcases parse_response_cases (detect_provider model.api_url) data with
            ⟨c, t, hp⟩ | ⟨m, hm, hp⟩ | ⟨e, hp⟩
          · exact ⟨⟨true, c, Option.none, t⟩,
              by simp [LLMClient.send_prompt, hkey, hs, hp], Or.inl rfl⟩
          · exact ⟨⟨false, .str "", Option.some m, .int 0⟩,
              by simp [LLMClient.send_prompt, hkey, hs, hp],
              Or.inr ⟨rfl, rfl, rfl, m, rfl, hm⟩⟩
          · obtain ⟨h1, h2, h3, m, h4, h5⟩ := except_chain_spec e
            exact ⟨except_chain e,
              by simp [LLMClient.send_prompt, hkey, hs, hp],
              Or.inr ⟨h1, h2, h3, m, h4, h5⟩⟩
      · exact ⟨⟨false, .str "",
            Option.some ("HTTP " ++ toString status ++ ": "
              ++ pyTake text 200), .int 0⟩,
          by simp [LLMClient.send_prompt, hkey, hs],
          Or.inr ⟨rfl, rfl, rfl, _, rfl,
            str_append_ne_empty _ _ (by
              rw [String.length_append, String.length_append]
              have h6 : 0 < "HTTP ".length := by decide
              omega)⟩⟩

theorem dictInsert_of_not_mem {K V : Type} [DecidableEq K]
    (d : List (K × V)) (k : K) (v : V) (h : k ∉ d.map Prod.fst) :
    dictInsert d k v = d ++ [(k, v)] := by
  simp [dictInsert, h]

theorem foldl_dictInsert_eq_append {K V : Type} [DecidableEq K] :
    ∀ (ps acc : List (K × V)), ((acc ++ ps).map Prod.fst).Nodup →
      ps.foldl (fun d q => dictInsert d q.1 q.2) acc = acc ++ ps := by
  intro ps
  induction ps with
  | nil => intro acc _; simp
  | cons p ps ih =>
    intro acc h
    have hmem : p.1 ∉ acc.map Prod.fst := by
      rw [List.map_append, List.nodup_append] at h
      intro hin
      exact h.2.2 hin (by simp)
    have hstep : dictInsert acc p.1 p.2 = acc ++ [p] := by
      rw [dictInsert_of_not_mem acc p.1 p.2 hmem]
    have h2 : (((acc ++ [p]) ++ ps).map Prod.fst).Nodup := by
      simpa [List.append_assoc] using h
    calc (p :: ps).foldl (fun d q => dictInsert d q.1 q.2) acc
        = ps.foldl (fun d q => dictInsert d q.1 q.2) (acc ++ [p]) := by
          simp [List.foldl_cons, hstep]
      _ = (acc ++ [p]) ++ ps := ih (acc ++ [p]) h2
      _ = acc ++ p :: ps := by simp

theorem pyDictOfList_of_nodup {K V : Type} [DecidableEq K]
    (ps : List (K × V)) (h : (ps.map Prod.fst).Nodup) :
    pyDictOfList ps = ps := by
  have := foldl_dictInsert_eq_append ps [] (by simpa using h)
  simpa [pyDictOfList] using this

theorem gather_ok {α K β : Type} (f : α → Except PyErr (K × β)) (g : α → K)
    (hf : ∀ x, ∃ y, f x = .ok (g x, y)) :
    ∀ l : List α, ∃ ps, gather f l = .ok ps ∧ ps.map Prod.fst = l.map g := by
  intro l
  induction l with
  | nil => exact ⟨[], rfl, rfl⟩
  | cons x xs ih =>
    obtain ⟨y, hy⟩ := hf x
    obtain ⟨ps, hps, hmap⟩ := ih
    refine ⟨(g x, y) :: ps, ?_, by simp [hmap]⟩
    have hdef : gather f (x :: xs)
        = f x >>= fun y2 => gather f xs >>= fun ys => pure (y2 :: ys) := rfl
    rw [hdef, hy, hps]
    rfl

/-! ## Claims -/

/-- Claim C1: for every list of models with pairwise-distinct identifiers,
every prompt and every timeout, `send_to_multiple_models` returns (without
raising) a mapping whose ordered key list is exactly the list of input
identifiers — one entry per model, success or failure, none dropped — and
for the empty model list it returns the empty mapping. -/
theorem C1_fanout_key_set (env : String → Option String)
    (net : Model → HttpResult) (models : List Model) (prompt : String)
    (timeout : Int) (hid : (models.map Model.id).Nodup) :
    ∃ d, send_to_multiple_models env net models prompt timeout = .ok d
      ∧ d.map Prod.fst = models.map Model.id
      ∧ (models = [] → d = []) := by
  have hf : ∀ m : Model, ∃ y,
      (LLMClient.send_prompt { timeout := timeout } env (net m) m prompt
        >>= fun response => pure ((m.id : Option Int), response))
      = Except.ok (m.id, y) := by
    intro m
    obtain ⟨r, hr, _⟩ :=
      send_prompt_cases { timeout := timeout } env (net m) m prompt 4096
    exact ⟨r, by rw [hr]; rfl⟩
  obtain ⟨ps, hg, hmap⟩ := gather_ok
    (fun m => LLMClient.send_prompt { timeout := timeout } env (net m) m prompt
      >>= fun response => pure ((m.id : Option Int), response))
    Model.id hf models
  have hnodup : (ps.map Prod.fst).Nodup := by rw [hmap]; exact hid
  have hdict : pyDictOfList ps = ps := pyDictOfList_of_nodup ps hnodup
  refine ⟨ps, ?_, hmap, ?_⟩
  · have hdef : send_to_multiple_models env net models prompt timeout
        = (gather (fun m => LLMClient.send_prompt { timeout := timeout } env
            (net m) m prompt
            >>= fun response => pure ((m.id : Option Int), response)) models)
          >>= fun results => pure (pyDictOfList results) := rfl
    rw [hdef, hg]
    show Except.ok (pyDictOfList ps) = Except.ok ps
    rw [hdict]
  · intro hnil
    subst hnil
    simpa using congrArg List.length hmap

/-- Claim C1 witness: a concrete two-model fan-out with distinct
identifiers. -/
theorem C1_witness :
    ∃ d, send_to_multiple_models (fun _ => Option.none)
        (fun _ => HttpResult.raise ⟨PyErrKind.otherError, "boom"⟩)
        [{ id := Option.some 1 }, { id := Option.some 2 }] "hi" 30 = .ok d
      ∧ d.map Prod.fst
          = ([{ id := Option.some 1 }, { id := Option.some 2 }] :
              List Model).map Model.id
      ∧ (([{ id := Option.some 1 }, { id := Option.some 2 }] :
              List Model) = [] → d = []) :=
  C1_fanout_key_set (fun _ => Option.none)
    (fun _ => HttpResult.raise ⟨PyErrKind.otherError, "boom"⟩)
    [{ id := Option.some 1 }, { id := Option.some 2 }] "hi" 30 (by simp)

/-- Claim C2: `send_prompt` never lets an exception reach its caller —
for every network behaviour it returns an `APIResponse`, unsuccessful
ones with a non-empty message — and each of the six failure kinds is
mapped to its `success := false` outcome with the descriptive message:
missing credential, timeout, transport error, any other exception raised
by the call, non-2xx status, malformed payload (both the parse failures
the parser converts itself and those that escape it or `response.json()`
and are recovered by the catch-all). -/
theorem C2_send_prompt_never_raises (client : LLMClient)
    (env : String → Option String) (model : Model) (prompt : String)
    (max_tokens : Int) :
    (∀ net : HttpResult, ∃ r,
       LLMClient.send_prompt client env net model prompt max_tokens = .ok r
       ∧ (r.success = false → ∃ m, r.error = Option.some m ∧ m ≠ ""))
    ∧ ((!optTruthy client.custom_api_key
        && !optTruthy (get_api_key env (detect_provider model.api_url)))
        = true →
       ∀ net : HttpResult,
       LLMClient.send_prompt client env net model prompt max_tokens
         = .ok ⟨false, .str "",
             Option.some ("API ключ не найден для провайдера "
               ++ (detect_provider model.api_url).value), .int 0⟩)
    ∧ ((!optTruthy client.custom_api_key
        && !optTruthy (get_api_key env (detect_provider model.api_url)))
        = false →
       (∀ e : PyErr, e.kind = PyErrKind.httpxTimeout →
          LLMClient.send_prompt client env (.raise e) model prompt max_tokens
            = .ok ⟨false, .str "",
                Option.some "Превышено время ожидания ответа", .int 0⟩)
       ∧ (∀ e : PyErr, e.kind = PyErrKind.httpxRequestError →
          LLMClient.send_prompt client env (.raise e) model prompt max_tokens
            = .ok ⟨false, .str "",
                Option.some ("Ошибка сети: " ++ e.msg), .int 0⟩)
       ∧ (∀ e : PyErr, e.kind ≠ PyErrKind.httpxTimeout →
          e.kind ≠ PyErrKind.httpxRequestError →
          LLMClient.send_prompt client env (.raise e) model prompt max_tokens
            = .ok ⟨false, .str "",
                Option.some ("Неизвестная ошибка: " ++ e.msg), .int 0⟩)
       ∧ (∀ (status : Nat) (text : String) (json : Except PyErr PyVal),
          status ≠ 200 →
          LLMClient.send_prompt client env (.response status text json)
            model prompt max_tokens
            = .ok ⟨false, .str "",
                Option.some ("HTTP " ++ toString status ++ ": "
                  ++ pyTake text 200), .int 0⟩)
       ∧ (∀ (text : String) (data : PyVal) (e : PyErr),
          parse_attempt (detect_provider model.api_url) data = .error e →
          (e.kind = PyErrKind.keyError ∨ e.kind = PyErrKind.indexError) →
          LLMClient.send_prompt client env (.response 200 text (.ok data))
            model prompt max_tokens
            = .ok ⟨false, .str "",
                Option.some ("Ошибка парсинга ответа: " ++ e.msg), .int 0⟩)
       ∧ (∀ (text : String) (data : PyVal) (e : PyErr),
          parse_attempt (detect_provider model.api_url) data = .error e →
          e.kind ≠ PyErrKind.keyError → e.kind ≠ PyErrKind.indexError →
          e.kind ≠ PyErrKind.httpxTimeout →
          e.kind ≠ PyErrKind.httpxRequestError →
          LLMClient.send_prompt client env (.response 200 text (.ok data))
            model prompt max_tokens
            = .ok ⟨false, .str "",
                Option.some ("Неизвестная ошибка: " ++ e.msg), .int 0⟩)
       ∧ (∀ (text : String) (e : PyErr),
          e.kind ≠ PyErrKind.httpxTimeout →
          e.kind ≠ PyErrKind.httpxRequestError →
          LLMClient.send_prompt client env (.response 200 text (.error e))
            model prompt max_tokens
            = .ok ⟨false, .str "",
                Option.some ("Неизвестная ошибка: " ++ e.msg), .int 0⟩)) := by
  refine ⟨?_, ?_, ?_⟩
  · intro net
    obtain ⟨r, hr, hcase⟩ :=
      send_prompt_cases client env net model prompt max_tokens
    refine ⟨r, hr, ?_⟩
    intro hfail
    rcases hcase with h | ⟨_, _, _, m, hm, hm2⟩
    · rw [hfail] at h
      exact absurd h (by simp)
    · exact ⟨m, hm, hm2⟩
  · intro hkey net
    simp [LLMClient.send_prompt, hkey]
  · intro hkey
    refine ⟨?_, ?_, ?_, ?_, ?_, ?_, ?_⟩
    · intro e he
      simp [LLMClient.send_prompt, hkey, except_chain, he]
    · intro e he
      simp [LLMClient.send_prompt, hkey, except_chain, he]
    · intro e h3 h4
      simp [LLMClient.send_prompt, hkey, except_chain, h3, h4]
    · intro status text json hst
      simp [LLMClient.send_prompt, hkey, hst]
    · intro text data e hpa hk
      simp [LLMClient.send_prompt, hkey, parse_response, hpa, hk]
    · intro text data e hpa h1 h2 h3 h4
      have hk : ¬(e.kind = PyErrKind.keyError
          ∨ e.kind = PyErrKind.indexError) := by
        simp [h1, h2]
      simp [LLMClient.send_prompt, hkey, parse_response, hpa, hk,
        except_chain, h3, h4]
    · intro text e h3 h4
      simp [LLMClient.send_prompt, hkey, except_chain, h3, h4]

/-- Claim C2 witness: with a resolvable override credential, a timeout
raised by the transport is returned as the timeout failure outcome. -/
theorem C2_witness :
    LLMClient.send_prompt ⟨30, Option.some "sk"⟩ (fun _ => Option.none)
      (HttpResult.raise ⟨PyErrKind.httpxTimeout, "timed out"⟩)
      ⟨Option.some 1, "gpt", "https://api.openai.com/v1/chat/completions",
        "gpt-4", true⟩ "hi" 4096
      = .ok ⟨false, .str "",
          Option.some "Превышено время ожидания ответа", .int 0⟩ :=
  ((C2_send_prompt_never_raises ⟨30, Option.some "sk"⟩ (fun _ => Option.none)
      ⟨Option.some 1, "gpt", "https://api.openai.com/v1/chat/completions",
        "gpt-4", true⟩ "hi" 4096).2.2 rfl).1
    ⟨PyErrKind.httpxTimeout, "timed out"⟩ rfl

/-- Claim C3 counterexample: an absent key is silently defaulted by
`parse_response` (yielding a success outcome, not a failure), and a
wrong-typed value raises a `TypeError` that escapes `parse_response`
instead of being converted to a failure outcome. -/
theorem C3_counterexample :
    parse_response APIProvider.OPENAI (.dict [])
      = .ok ⟨true, .str "", Option.none, .int 0⟩
    ∧ parse_response APIProvider.OPENAI (.dict [("choices", .int 5)])
      = .error ⟨PyErrKind.typeError, "int object is not subscriptable"⟩ :=
  ⟨rfl, rfl⟩

/-- Claim C3 (amended): `parse_response` converts exactly the `KeyError`
and `IndexError` structural-access failures — an empty array being
indexed in particular — into `success := false`, empty content, a
non-empty parse-error message and zero tokens; absent keys are defaulted
and wrong-typed values escape as `TypeError`/`AttributeError`. -/
theorem C3_parse_error_containment (p : APIProvider) (d : PyVal) (e : PyErr)
    (h1 : parse_attempt p d = .error e)
    (h2 : e.kind = PyErrKind.keyError ∨ e.kind = PyErrKind.indexError) :
    parse_response p d
      = .ok ⟨false, .str "",
          Option.some ("Ошибка парсинга ответа: " ++ e.msg), .int 0⟩
    ∧ ("Ошибка парсинга ответа: " ++ e.msg) ≠ "" := by
  constructor
  · simp [parse_response, h1, h2]
  · exact str_append_ne_empty _ _ (by decide)

/-- Claim C3 witness: the spec's own malformed-shape instance, the empty
`choices` array. -/
theorem C3_witness :
    parse_response APIProvider.OPENAI (.dict [("choices", .list [])])
      = .ok ⟨false, .str "",
          Option.some ("Ошибка парсинга ответа: "
            ++ "list index out of range"), .int 0⟩
    ∧ ("Ошибка парсинга ответа: " ++ "list index out of range") ≠ "" :=
  C3_parse_error_containment APIProvider.OPENAI (.dict [("choices", .list [])])
    ⟨PyErrKind.indexError, "list index out of range"⟩ rfl (Or.inr rfl)

/-- Claim C4 counterexample: a URL containing "deepseek.com" need not map
to the OpenAI-compatible family — when "anthropic.com" also occurs, the
earlier anthropic test wins. -/
theorem C4_counterexample :
    containsSub (pyLower "https://deepseek.com.anthropic.com/v1")
      "deepseek.com" = true
    ∧ specKind (detect_provider "https://deepseek.com.anthropic.com/v1")
      = SpecProviderKind.anthropic
    ∧ SpecProviderKind.anthropic ≠ SpecProviderKind.openAICompatible :=
  ⟨rfl, rfl, by decide⟩

/-- Claim C4 (amended): the classifier is a total function of the URL,
matching by substring on the lower-cased URL in the fixed order openai,
anthropic, deepseek, groq: the anthropic example URL maps to Anthropic,
any URL containing "openai.com" maps to the OpenAI-compatible family, a
URL containing "deepseek.com" or "groq.com" maps to the OpenAI-compatible
family provided it does not also contain "anthropic.com", and the
openrouter URL and the empty URL map to Custom. -/
theorem C4_classifier (url : String) :
    detect_provider "https://api.anthropic.com/v1/messages"
      = APIProvider.ANTHROPIC
    ∧ detect_provider "https://openrouter.ai/api/v1/chat/completions"
      = APIProvider.CUSTOM
    ∧ detect_provider "" = APIProvider.CUSTOM
    ∧ (containsSub (pyLower url) "openai.com" = true →
        specKind (detect_provider url) = SpecProviderKind.openAICompatible)
    ∧ ((containsSub (pyLower url) "deepseek.com" = true
        ∨ containsSub (pyLower url) "groq.com" = true) →
        containsSub (pyLower url) "anthropic.com" = false →
        specKind (detect_provider url) = SpecProviderKind.openAICompatible) := by
  refine ⟨rfl, rfl, rfl, ?_, ?_⟩
  · intro h
    simp [detect_provider, h, specKind]
  · intro h ha
    by_cases ho : containsSub (pyLower url) "openai.com" = true
    · simp [detect_provider, ho, specKind]
    · rcases h with hd | hg
      · simp [detect_provider, ho, ha, hd, specKind]
      · by_cases hd2 : containsSub (pyLower url) "deepseek.com" = true
        · simp [detect_provider, ho, ha, hd2, specKind]
        · simp [detect_provider, ho, ha, hd2, hg, specKind]

/-- Claim C4 witness: a plain DeepSeek URL classifies into the
OpenAI-compatible family. -/
theorem C4_witness :
    specKind (detect_provider "https://api.deepseek.com/chat/completions")
      = SpecProviderKind.openAICompatible :=
  (C4_classifier "https://api.deepseek.com/chat/completions").2.2.2.2
    (Or.inl rfl) rfl

/-- Claim C5: headers for Anthropic are exactly Content-Type, x-api-key
with the resolved credential and the fixed date-versioned
anthropic-version; for every other kind exactly Content-Type and a Bearer
Authorization; and when neither an override credential nor an environment
credential is truthy, the resolved credential is the empty string rather
than a failure. -/
theorem C5_headers_shape (client : LLMClient) (env : String → Option String)
    (provider : APIProvider) :
    (provider = APIProvider.ANTHROPIC →
      LLMClient.get_headers client env provider
        = [("Content-Type", "application/json"),
           ("x-api-key", resolved_api_key client env provider),
           ("anthropic-version", "2023-06-01")])
    ∧ (provider ≠ APIProvider.ANTHROPIC →
      LLMClient.get_headers client env provider
        = [("Content-Type", "application/json"),
           ("Authorization", "Bearer " ++ resolved_api_key client env provider)])
    ∧ (optTruthy client.custom_api_key = false →
        optTruthy (get_api_key env provider) = false →
        resolved_api_key client env provider = "") := by
  refine ⟨?_, ?_, ?_⟩
  · intro h
    simp [LLMClient.get_headers, h]
  · intro h
    simp [LLMClient.get_headers, h]
  · intro h1 h2
    simp [resolved_api_key, pyOrEmpty, pyOrStr, h1, h2]

/-- Claim C5 witness: with no override credential and an empty
environment, Anthropic headers are still built with an empty key. -/
theorem C5_witness :
    LLMClient.get_headers ⟨30, Option.none⟩ (fun _ => Option.none)
        APIProvider.ANTHROPIC
      = [("Content-Type", "application/json"),
         ("x-api-key", resolved_api_key ⟨30, Option.none⟩
            (fun _ => Option.none) APIProvider.ANTHROPIC),
         ("anthropic-version", "2023-06-01")]
    ∧ resolved_api_key ⟨30, Option.none⟩ (fun _ => Option.none)
        APIProvider.ANTHROPIC = "" :=
  ⟨(C5_headers_shape ⟨30, Option.none⟩ (fun _ => Option.none)
      APIProvider.ANTHROPIC).1 rfl,
   (C5_headers_shape ⟨30, Option.none⟩ (fun _ => Option.none)
      APIProvider.ANTHROPIC).2.2 rfl rfl⟩

/-- Claim C6: the request body is exactly the Anthropic shape
{model, max_tokens, messages} for Anthropic and exactly the
OpenAI-compatible shape {model, messages, max_tokens} otherwise; the
omitted token budget defaults to 4096; and for every provider kind the
single message has role "user" and max_tokens is present. -/
theorem C6_body_shape (provider : APIProvider) (model_id prompt : String)
    (max_tokens : Int) :
    build_request_body provider model_id prompt max_tokens
      = (if provider = APIProvider.ANTHROPIC then
          PyVal.dict [("model", .str model_id),
                      ("max_tokens", .int max_tokens),
                      ("messages", .list [.dict [("role", .str "user"),
                                                 ("content", .str prompt)]])]
        else
          PyVal.dict [("model", .str model_id),
                      ("messages", .list [.dict [("role", .str "user"),
                                                 ("content", .str prompt)]]),
                      ("max_tokens", .int max_tokens)])
    ∧ build_request_body provider model_id prompt
        = build_request_body provider model_id prompt 4096
    ∧ pyGet (build_request_body provider model_id prompt max_tokens)
        "messages" PyVal.none
        = .ok (.list [.dict [("role", .str "user"),
                             ("content", .str prompt)]])
    ∧ pyGet (build_request_body provider model_id prompt max_tokens)
        "max_tokens" PyVal.none
        = .ok (.int max_tokens) := by
  cases provider <;> exact ⟨rfl, rfl, rfl, rfl⟩

/-- Claim C7: parse round-trip — for every content string and token
count, the well-formed OpenAI-compatible body parses to a success outcome
with that content and `usage.completion_tokens`, the well-formed
Anthropic body parses to `content[0].text` and `usage.output_tokens`,
and the spec's concrete hello/3 instance holds. -/
theorem C7_parse_round_trip (s : String) (n : Int) :
    parse_response APIProvider.OPENAI
      (.dict [("choices", .list [.dict [("message",
                 .dict [("content", .str s)])]]),
              ("usage", .dict [("completion_tokens", .int n)])])
      = .ok ⟨true, .str s, Option.none, .int n⟩
    ∧ parse_response APIProvider.ANTHROPIC
      (.dict [("content", .list [.dict [("text", .str s)]]),
              ("usage", .dict [("output_tokens", .int n)])])
      = .ok ⟨true, .str s, Option.none, .int n⟩
    ∧ parse_response APIProvider.OPENAI
      (.dict [("choices", .list [.dict [("message",
                 .dict [("content", .str "hello")])]]),
              ("usage", .dict [("completion_tokens", .int 3)])])
      = .ok ⟨true, .str "hello", Option.none, .int 3⟩ :=
  ⟨rfl, rfl, rfl⟩

/-- Claim C8: when no override credential was supplied and the resolver
has nothing for the detected provider kind, `send_prompt` returns the
no-credential failure naming the provider kind, for every network
behaviour — the result does not depend on `net`, so no network call is
observed. -/
theorem C8_no_credential_no_call (client : LLMClient)
    (env : String → Option String) (net : HttpResult) (model : Model)
    (prompt : String) (max_tokens : Int)
    (hcustom : client.custom_api_key = Option.none)
    (henv : get_api_key env (detect_provider model.api_url) = Option.none) :
    LLMClient.send_prompt client env net model prompt max_tokens
      = .ok ⟨false, .str "",
          Option.some ("API ключ не найден для провайдера "
            ++ (detect_provider model.api_url).value), .int 0⟩ := by
  have hkey : (!optTruthy client.custom_api_key
      && !optTruthy (get_api_key env (detect_provider model.api_url)))
      = true := by
    simp [hcustom, henv, optTruthy]
  simp [LLMClient.send_prompt, hkey]

/-- Claim C8 witness: an OpenAI model with an empty environment fails
immediately, for a network that would have raised. -/
theorem C8_witness :
    LLMClient.send_prompt ⟨30, Option.none⟩ (fun _ => Option.none)
      (HttpResult.raise ⟨PyErrKind.otherError, "unreachable"⟩)
      ⟨Option.some 1, "gpt", "https://api.openai.com/v1/chat/completions",
        "gpt-4", true⟩ "hi" 4096
      = .ok ⟨false, .str "",
          Option.some ("API ключ не найден для провайдера "
            ++ (detect_provider
                  "https://api.openai.com/v1/chat/completions").value),
          .int 0⟩ :=
  C8_no_credential_no_call ⟨30, Option.none⟩ (fun _ => Option.none)
    (HttpResult.raise ⟨PyErrKind.otherError, "unreachable"⟩)
    ⟨Option.some 1, "gpt", "https://api.openai.com/v1/chat/completions",
      "gpt-4", true⟩ "hi" 4096 rfl rfl

/-- Claim C9 counterexample: a streaming invocation that accumulates a
chunk and then times out returns a failure outcome whose content is the
non-empty partial text, violating the empty-content-on-failure shape
invariant. -/
theorem C9_counterexample :
    (LLMClient.send_prompt_streaming ⟨30, Option.some "k"⟩
        (fun _ => Option.none)
        (StreamNet.response 200 "" ["data: x"]
          (StreamTerminal.raise ⟨PyErrKind.httpxTimeout, ""⟩))
        (fun _ => .ok (.dict [("choices", .list [.dict [("delta",
            .dict [("content", .str "hi")])]])]))
        ⟨Option.some 1, "m", "http://x", "mid", true⟩ "p" 4096).success
      = false
    ∧ (LLMClient.send_prompt_streaming ⟨30, Option.some "k"⟩
        (fun _ => Option.none)
        (StreamNet.response 200 "" ["data: x"]
          (StreamTerminal.raise ⟨PyErrKind.httpxTimeout, ""⟩))
        (fun _ => .ok (.dict [("choices", .list [.dict [("delta",
            .dict [("content", .str "hi")])]])]))
        ⟨Option.some 1, "m", "http://x", "mid", true⟩ "p" 4096).content
      = PyVal.str "hi"
    ∧ PyVal.str "hi" ≠ PyVal.str "" := by
  refine ⟨rfl, rfl, ?_⟩
  intro h
  injection h with h2
  exact absurd h2 (by decide)

/-- Claim C9 (amended): failure outcomes of the non-streaming invoker and
of the parser have empty content and zero tokens; failure outcomes of the
streaming invoker have zero tokens and carry the accumulated partial
content as a string, which may be non-empty. -/
theorem C9_outcome_shape :
    (∀ (client : LLMClient) (env : String → Option String)
       (net : HttpResult) (model : Model) (prompt : String) (mt : Int)
       (r : APIResponse),
       LLMClient.send_prompt client env net model prompt mt = .ok r →
       r.success = false →
       r.content = .str "" ∧ r.tokens_used = .int 0)
  ∧ (∀ (p : APIProvider) (d : PyVal) (r : APIResponse),
       parse_response p d = .ok r → r.success = false →
       r.content = .str "" ∧ r.tokens_used = .int 0)
  ∧ (∀ (client : LLMClient) (env : String → Option String)
       (net : StreamNet) (loads : String → Except PyErr PyVal)
       (model : Model) (prompt : String) (mt : Int),
       (LLMClient.send_prompt_streaming client env net loads model
         prompt mt).success = false →
       (∃ s, (LLMClient.send_prompt_streaming client env net loads model
         prompt mt).content = .str s)
       ∧ (LLMClient.send_prompt_streaming client env net loads model
         prompt mt).tokens_used = .int 0) := by
  refine ⟨?_, ?_, ?_⟩
  · intro client env net model prompt mt r hr hsucc
    obtain ⟨r0, hr0, hcase⟩ := send_prompt_cases client env net model prompt mt
    rw [hr0] at hr
    injection hr with h
    subst h
    rcases hcase with h | ⟨_, h2, h3, _⟩
    · rw [hsucc] at h
      exact absurd h (by simp)
    · exact ⟨h2, h3⟩
  · intro p d r hr hsucc
    rcases parse_response_cases p d with ⟨c, t, hp⟩ | ⟨m, _, hp⟩ | ⟨e, hp⟩
    · rw [hp] at hr
      injection hr with h
      subst h
      simp at hsucc
    · rw [hp] at hr
      injection hr with h
      subst h
      exact ⟨rfl, rfl⟩
    · rw [hp] at hr
      cases hr
  · intro client env net loads model prompt mt
    by_cases hkey : (!optTruthy client.custom_api_key
        && !optTruthy (get_api_key env (detect_provider model.api_url)))
        = true
    · have hval : LLMClient.send_prompt_streaming client env net loads
          model prompt mt
          = ⟨false, .str "",
              Option.some ("API ключ не найден для провайдера "
                ++ (detect_provider model.api_url).value), .int 0⟩ := by
        simp [LLMClient.send_prompt_streaming, hkey]
      rw [hval]
      intro _
      exact ⟨⟨"", rfl⟩, rfl⟩
    · cases net with
      | raise e =>
        have hval : LLMClient.send_prompt_streaming client env
            (StreamNet.raise e) loads model prompt mt
            = stream_except_chain e "" := by
          simp [LLMClient.send_prompt_streaming, hkey]
        rw [hval]
        intro _
        obtain ⟨_, h2, h3, _⟩ := stream_except_chain_spec e ""
        exact ⟨⟨"", h2⟩, h3⟩
      | response status errText lines terminal =>
        by_cases hst : status = 200
        · cases terminal with
          | done =>
            have hval : LLMClient.send_prompt_streaming client env
                (StreamNet.response status errText lines
                  StreamTerminal.done) loads model prompt mt
                = ⟨true, .str (stream_lines loads
                    (detect_provider model.api_url) lines ""),
                    Option.none, .int 0⟩ := by
              simp [LLMClient.send_prompt_streaming, hkey, hst]
            rw [hval]
            intro hsucc
            simp at hsucc
          | raise e =>
            have hval : LLMClient.send_prompt_streaming client env
                (StreamNet.response status errText lines
                  (StreamTerminal.raise e)) loads model prompt mt
                = stream_except_chain e (stream_lines loads
                    (detect_provider model.api_url) lines "") := by
              simp [LLMClient.send_prompt_streaming, hkey, hst]
            rw [hval]
            intro _
            obtain ⟨_, h2, h3, _⟩ := stream_except_chain_spec e
              (stream_lines loads (detect_provider model.api_url) lines "")
            exact ⟨⟨_, h2⟩, h3⟩
        · have hval : LLMClient.send_prompt_streaming client env
              (StreamNet.response status errText lines terminal) loads
              model prompt mt
              = ⟨false, .str "",
                  Option.some ("HTTP " ++ toString status ++ ": "
                    ++ pyTake errText 200), .int 0⟩ := by
            simp [LLMClient.send_prompt_streaming, hkey, hst]
          rw [hval]
          intro _
          exact ⟨⟨"", rfl⟩, rfl⟩

/-- Claim C9 witness: a concrete failing non-streaming outcome has empty
content and zero tokens. -/
theorem C9_witness :
    ((⟨false, PyVal.str "",
        Option.some ("API ключ не найден для провайдера "
          ++ APIProvider.CUSTOM.value), PyVal.int 0⟩ : APIResponse).content
      = PyVal.str "")
    ∧ ((⟨false, PyVal.str "",
        Option.some ("API ключ не найден для провайдера "
          ++ APIProvider.CUSTOM.value), PyVal.int 0⟩ :
          APIResponse).tokens_used = PyVal.int 0) :=
  C9_outcome_shape.1 ⟨30, Option.none⟩ (fun _ => Option.none)
    (HttpResult.raise ⟨PyErrKind.otherError, "x"⟩)
    ⟨Option.none, "", "", "", true⟩ "p" 4096
    ⟨false, PyVal.str "",
      Option.some ("API ключ не найден для провайдера "
        ++ APIProvider.CUSTOM.value), PyVal.int 0⟩ rfl rfl

/-- Claim C10: a URL classifying as Custom with no override credential
always produces the no-credential failure without a network call, for
every environment — the resolver has no mapping for the Custom kind. -/
theorem C10_custom_has_no_credential (client : LLMClient)
    (env : String → Option String) (net : HttpResult) (model : Model)
    (prompt : String) (max_tokens : Int)
    (hcustom : client.custom_api_key = Option.none)
    (hurl : detect_provider model.api_url = APIProvider.CUSTOM) :
    get_api_key env APIProvider.CUSTOM = Option.none
    ∧ LLMClient.send_prompt client env net model prompt max_tokens
      = .ok ⟨false, .str "",
          Option.some ("API ключ не найден для провайдера "
            ++ APIProvider.CUSTOM.value), .int 0⟩ := by
  refine ⟨rfl, ?_⟩
  simp [LLMClient.send_prompt, hurl, hcustom, get_api_key, optTruthy]

/-- Claim C10 witness: an openrouter URL with a fully-populated
environment still fails with the no-credential outcome. -/
theorem C10_witness :
    get_api_key (fun _ => Option.some "sk") APIProvider.CUSTOM = Option.none
    ∧ LLMClient.send_prompt ⟨30, Option.none⟩ (fun _ => Option.some "sk")
        (HttpResult.response 200 "" (.ok (.dict [])))
        ⟨Option.some 7, "or", "https://openrouter.ai/api/v1/chat/completions",
          "m", true⟩ "p" 4096
      = .ok ⟨false, .str "",
          Option.some ("API ключ не найден для провайдера "
            ++ APIProvider.CUSTOM.value), .int 0⟩ :=
  C10_custom_has_no_credential ⟨30, Option.none⟩ (fun _ => Option.some "sk")
    (HttpResult.response 200 "" (.ok (.dict [])))
    ⟨Option.some 7, "or", "https://openrouter.ai/api/v1/chat/completions",
      "m", true⟩ "p" 4096 rfl rfl

end ChatList
